import Mathlib

/-!
Verification development for the coding-nexus-migrator repository.

The Python sources are shallowly embedded as executable Lean definitions:
pure helpers become Lean functions, HTTP calls and other effects become
explicit oracle parameters (`Except`-valued results or plain response
records), and Python exceptions become an explicit error sum type.
Strings are modelled with Lean `String`, using char-list based helper
functions (lowercasing, splitting, substring search) that mirror the
Python string operations used by the sources and reduce inside the kernel.
-/

deriving instance DecidableEq for Except

namespace CodingMigrator

/-! ## String helpers mirroring the Python string operations -/

/-- Lowercase a string character-by-character (Python `str.lower` on the
ASCII names used by this code base). -/
def strLower (s : String) : String := ⟨s.data.map Char.toLower⟩

/-- Uppercase a string character-by-character (Python `str.upper`). -/
def strUpper (s : String) : String := ⟨s.data.map Char.toUpper⟩

/-- Python `str.endswith`. -/
def strEndsWith (s suffix : String) : Bool := suffix.data.isSuffixOf s.data

/-- Split a character list on a separator character; always returns at
least one (possibly empty) chunk, matching Python `str.split(sep)` for a
one-character separator. -/
def splitCharAux (c : Char) : List Char → List (List Char)
  | [] => [[]]
  | x :: xs =>
    match splitCharAux c xs with
    | [] => [[x]]
    | h :: t => if x = c then [] :: h :: t else (x :: h) :: t

/-- Python `s.split(c)` for a single-character separator `c`. -/
def strSplitOn (s : String) (c : Char) : List String :=
  (splitCharAux c s.data).map String.mk

/-- Substring search on character lists (Python `pat in s`). -/
def hasSubstrAux (pat : List Char) : List Char → Bool
  | [] => pat.isEmpty
  | c :: rest => pat.isPrefixOf (c :: rest) || hasSubstrAux pat rest

/-- Python `pat in s` (substring containment). -/
def strContainsSub (s pat : String) : Bool := hasSubstrAux pat.data s.data

/-- Python `s.replace(old, new)` for single characters. -/
def strReplaceChar (s : String) (old new : Char) : String :=
  ⟨s.data.map (fun c => if c = old then new else c)⟩

/-- Python truthiness of an optional string (`None` and `""` are falsy). -/
def truthyStr : Option String → Bool
  | none => false
  | some s => !(s == "")

/-! ## Error taxonomy (`src/coding_migrator/exceptions.py`) plus the
built-in Python exception classes actually raised by the sources.  The
taxonomy classes `ConfigurationError` and `APIError` are declared in
`exceptions.py`; the built-ins `ValueError` / `FileNotFoundError` and the
transport-library `requests.RequestException` are what the code raises. -/

inductive PyErr where
  /-- Python built-in `ValueError`. -/
  | valueError (msg : String)
  /-- Python built-in `FileNotFoundError`. -/
  | fileNotFoundError (msg : String)
  /-- `requests.RequestException` from the HTTP transport library. -/
  | requestException (msg : String)
  /-- The taxonomy's `ConfigurationError` from `exceptions.py`. -/
  | configurationError (msg : String)
  /-- The taxonomy's `APIError` from `exceptions.py` (optional upstream
  code and details). -/
  | apiError (msg : String) (code : Option String) (details : Option String)
deriving DecidableEq, Repr

/-- Whether an error is an instance of the taxonomy's `ConfigurationError`. -/
def PyErr.isConfigurationErrorClass : PyErr → Bool
  | .configurationError _ => true
  | _ => false

/-- Whether an error is an instance of the taxonomy's `APIError`. -/
def PyErr.isApiErrorClass : PyErr → Bool
  | .apiError _ _ _ => true
  | _ => false

/-- The Python `str(e)` message of an exception. -/
def PyErr.message : PyErr → String
  | .valueError m => m
  | .fileNotFoundError m => m
  | .requestException m => m
  | .configurationError m => m
  | .apiError m _ _ => m

/-- Whether an `Except`-valued computation ended in a taxonomy
`ConfigurationError`. -/
def exceptIsConfigurationError {α : Type} : Except PyErr α → Bool
  | .error e => e.isConfigurationErrorClass
  | .ok _ => false

/-- Whether an `Except`-valued computation ended in a taxonomy `APIError`. -/
def exceptIsApiError {α : Type} : Except PyErr α → Bool
  | .error e => e.isApiErrorClass
  | .ok _ => false

/-! ## `utils.parse_maven_coordinates` (`src/coding_migrator/utils.py`,
lines 183-205).  The source splits on `':'` and raises the built-in
`ValueError` when fewer than three parts are present. -/

/-- The dictionary returned by `parse_maven_coordinates`. -/
structure MavenCoordinates where
  groupId : String
  artifactId : String
  version : String
  packaging : String
deriving DecidableEq, Repr

/-- Embedding of `utils.parse_maven_coordinates`. -/
def parse_maven_coordinates (coordinates : String) : Except PyErr MavenCoordinates :=
  let parts := strSplitOn coordinates ':'
  if parts.length < 3 then
    .error (.valueError ("Invalid Maven coordinates: " ++ coordinates))
  else
    .ok { groupId := parts.getD 0 "", artifactId := parts.getD 1 "",
          version := parts.getD 2 "",
          packaging := if parts.length > 3 then parts.getD 3 "" else "jar" }

/-! ## Destination uploader (`src/coding_migrator/nexus_uploader.py`) -/

/-- One entry of the Nexus repository list as consumed by the uploader
(`repo.get('name', '')` and `repo.get('format')`). -/
structure NexusRepo where
  name : String
  format : String
deriving DecidableEq, Repr

/-- The uploader state relevant to repository routing: the configured
default repository (`config.nexus_repository`), the optional configured
snapshot/releases repositories, and the cached repository list. -/
structure UploaderState where
  repository : String
  snapshot_repo : Option String
  releases_repo : Option String
  repositories : List NexusRepo
deriving DecidableEq, Repr

/-- Embedding of `NexusUploader.is_snapshot_version`
(`version.upper().endswith('-SNAPSHOT')`). -/
def is_snapshot_version (version : String) : Bool :=
  strEndsWith (strUpper version) "-SNAPSHOT"

/-- Embedding of `NexusUploader._find_snapshot_repository`: first pass
looks for a lowercased name containing `"snapshot"` with format `maven2`,
second pass for `"snap"`; returns the repository's original name. -/
def find_snapshot_repository (repositories : List NexusRepo) : Option String :=
  match repositories.find? (fun repo =>
      strContainsSub (strLower repo.name) "snapshot" && repo.format == "maven2") with
  | some repo => some repo.name
  | none =>
    (repositories.find? (fun repo =>
      strContainsSub (strLower repo.name) "snap" && repo.format == "maven2")).map NexusRepo.name

/-- Embedding of `NexusUploader._find_releases_repository`: first pass
looks for a lowercased name containing `"release"` with format `maven2`,
second pass for `"hosted"`. -/
def find_releases_repository (repositories : List NexusRepo) : Option String :=
  match repositories.find? (fun repo =>
      strContainsSub (strLower repo.name) "release" && repo.format == "maven2") with
  | some repo => some repo.name
  | none =>
    (repositories.find? (fun repo =>
      strContainsSub (strLower repo.name) "hosted" && repo.format == "maven2")).map NexusRepo.name

/-- Embedding of `NexusUploader.determine_repository`.  Python truthiness
(`if self.snapshot_repo:`) treats both `None` and `""` as unset. -/
def determine_repository (st : UploaderState) (version : String) : String :=
  if is_snapshot_version version then
    if truthyStr st.snapshot_repo then st.snapshot_repo.getD ""
    else
      match find_snapshot_repository st.repositories with
      | some auto => auto
      | none => st.repository
  else
    if truthyStr st.releases_repo then st.releases_repo.getD ""
    else
      match find_releases_repository st.repositories with
      | some auto => auto
      | none => st.repository

/-- The routing function exactly as the claim words it: the configured
name if set (any set value), else the first maven2-format repository whose
name contains the literal `"snapshot"` (resp. `"release"`), else the first
containing `"snap"` (resp. `"hosted"`), else the configured default. -/
def determine_repository_claim (st : UploaderState) (version : String) : String :=
  if is_snapshot_version version then
    match st.snapshot_repo with
    | some s => s
    | none =>
      match st.repositories.find? (fun repo =>
          strContainsSub repo.name "snapshot" && repo.format == "maven2") with
      | some repo => repo.name
      | none =>
        match st.repositories.find? (fun repo =>
            strContainsSub repo.name "snap" && repo.format == "maven2") with
        | some repo => repo.name
        | none => st.repository
  else
    match st.releases_repo with
    | some s => s
    | none =>
      match st.repositories.find? (fun repo =>
          strContainsSub repo.name "release" && repo.format == "maven2") with
      | some repo => repo.name
      | none =>
        match st.repositories.find? (fun repo =>
            strContainsSub repo.name "hosted" && repo.format == "maven2") with
        | some repo => repo.name
        | none => st.repository

/-- The routing function as the amended claim words it: name containment
is tested on the lowercased repository name (the source lowercases before
matching), and a configured repository name counts as set only when it is
non-empty (Python truthiness). -/
def determine_repository_claim_ci (st : UploaderState) (version : String) : String :=
  if is_snapshot_version version then
    if truthyStr st.snapshot_repo then st.snapshot_repo.getD ""
    else
      match st.repositories.find? (fun repo =>
          strContainsSub (strLower repo.name) "snapshot" && repo.format == "maven2") with
      | some repo => repo.name
      | none =>
        match st.repositories.find? (fun repo =>
            strContainsSub (strLower repo.name) "snap" && repo.format == "maven2") with
        | some repo => repo.name
        | none => st.repository
  else
    if truthyStr st.releases_repo then st.releases_repo.getD ""
    else
      match st.repositories.find? (fun repo =>
          strContainsSub (strLower repo.name) "release" && repo.format == "maven2") with
      | some repo => repo.name
      | none =>
        match st.repositories.find? (fun repo =>
            strContainsSub (strLower repo.name) "hosted" && repo.format == "maven2") with
        | some repo => repo.name
        | none => st.repository

/-! ## `NexusUploader.upload_file` (`nexus_uploader.py`, lines 198-302). -/

/-- The HTTP response of the destination's PUT endpoint.
`errorDetailsJson` is `some d` when the body parses as JSON carrying an
`error_details` field with value `d`, and `none` when the body is not
JSON or lacks the field (the source then falls back to the raw text). -/
structure HttpResponse where
  status : Nat
  text : String
  errorDetailsJson : Option String
deriving DecidableEq, Repr

/-- The result dictionary of `upload_file`.  `repository` and
`status_code` are absent (`none`) on the exception path, matching the
source's smaller failure dictionary. -/
structure UploadResult where
  success : Bool
  file_path : String
  maven_path : String
  repository : Option String
  status_code : Option Nat
  error : Option String
deriving DecidableEq, Repr

/-- Embedding of `NexusUploader.upload_file`.  Effects are oracles: the
local file's existence check and the PUT call's outcome.  A missing local
file raises `FileNotFoundError` before the `try` block; every other
failure is caught and reported as a failure dictionary. -/
def upload_file (st : UploaderState) (fileExists : Bool) (filePath : String)
    (mavenPath : String) (putResult : Except PyErr HttpResponse) :
    Except PyErr UploadResult :=
  if !fileExists then .error (.fileNotFoundError ("File not found: " ++ filePath))
  else
    let repositoryPath := strReplaceChar mavenPath '\\' '/'
    let parts := strSplitOn repositoryPath '/'
    if 4 ≤ parts.length then
      let version := parts.getD (parts.length - 2) ""
      let target_repository := determine_repository st version
      match putResult with
      | .error e =>
        .ok { success := false, file_path := filePath, maven_path := repositoryPath,
              repository := none, status_code := none, error := some e.message }
      | .ok response =>
        if response.status == 201 || response.status == 204 then
          .ok { success := true, file_path := filePath, maven_path := repositoryPath,
                repository := some target_repository,
                status_code := some response.status, error := none }
        else
          .ok { success := false, file_path := filePath, maven_path := repositoryPath,
                repository := some target_repository,
                status_code := some response.status,
                error := some (response.errorDetailsJson.getD response.text) }
    else
      .ok { success := false, file_path := filePath, maven_path := repositoryPath,
            repository := none, status_code := none,
            error := some ("Invalid Maven path format: " ++ repositoryPath) }

/-! ## Source-service API client (`src/coding_migrator/coding_client.py`) -/

/-- One row of `Response.Data.InstanceSet` as consumed by
`get_maven_versions` (every field is read with a `.get` default). -/
structure PackageRow where
  package : Option String
  packageVersion : Option String
  versionId : Option String
  projectId : Option Nat
  repository : Option String
  releaseStatus : Option Nat
  createdAt : Option Nat
deriving DecidableEq, Repr

/-- The upstream error object `Response.Error` (`Code`/`Message`, both of
which the source reads with `.get`, so both may be absent). -/
structure ApiErrObj where
  code : Option String
  message : Option String
deriving DecidableEq, Repr

/-- The parsed JSON body of one API response: the optional
`Response.Error` object and the `Response.Data.InstanceSet` rows (the only
payload the claims need). -/
structure ApiBody where
  err : Option ApiErrObj
  instanceSet : List PackageRow
deriving DecidableEq, Repr

/-- Outcome of one HTTP POST inside `_make_request`: either a parsed JSON
body, or a `requests.RequestException` raised by the transport /
`raise_for_status` (carrying its `str` message). -/
inductive AttemptResult where
  | httpOk (body : ApiBody)
  | raised (msg : String)
deriving DecidableEq, Repr

/-- Python `f"{x}"` for an optional string (`None` renders as "None"). -/
def pyReprOptStr (o : Option String) : String := o.getD "None"

/-- Embedding of the retry loop of `CodingClient._make_request`
(`for retry in range(3)`): the list argument holds the attempt indices of
the remaining loop iterations (the loop enters with `[1, 2, 3]`, attempt 0
being the initial request), so `retry < max_retries - 1` is "the tail is
non-empty".  Returns the result together with the number of POSTs issued
by the loop.  A retry answered with a non-rate-limit upstream error falls
through the source's `break` and is returned as a successful result. -/
def make_request_retry (attempts : Nat → AttemptResult) :
    List Nat → Except PyErr ApiBody × Nat
  | [] => (.error (.requestException "unreachable"), 0)
  | attemptIdx :: restRetries =>
    match attempts attemptIdx with
    | .raised msg =>
      if restRetries.isEmpty then
        (.error (.requestException ("API Error: " ++ msg ++ " (max retries exceeded)")), 1)
      else
        let r := make_request_retry attempts restRetries
        (r.1, r.2 + 1)
    | .httpOk body =>
      match body.err with
      | some e =>
        if e.code == some "RequestLimitExceeded" then
          if restRetries.isEmpty then
            (.error (.requestException
              ("API Error: " ++ pyReprOptStr e.code ++ " - "
                ++ e.message.getD "Unknown error" ++ " (max retries exceeded)")), 1)
          else
            let r := make_request_retry attempts restRetries
            (r.1, r.2 + 1)
        else (.ok body, 1)
      | none => (.ok body, 1)

/-- Embedding of `CodingClient._make_request` over an oracle giving the
outcome of each HTTP POST (`attempts 0` is the initial request).  Returns
the result together with the total number of POSTs issued: a response
carrying the upstream code `RequestLimitExceeded` enters the retry loop
(up to 3 retries); any other upstream error code raises a
`requests.RequestException` immediately. -/
def make_request (attempts : Nat → AttemptResult) : Except PyErr ApiBody × Nat :=
  match attempts 0 with
  | .raised msg => (.error (.requestException msg), 1)
  | .httpOk body =>
    match body.err with
    | some e =>
      if e.code == some "RequestLimitExceeded" then
        let r := make_request_retry attempts [1, 2, 3]
        (r.1, r.2 + 1)
      else
        (.error (.requestException
          ("API Error: " ++ e.code.getD "Unknown" ++ " - "
            ++ e.message.getD "Unknown error")), 1)
    | none => (.ok body, 1)

/-! ## `get_maven_packages` / `get_maven_versions`
(`coding_client.py`, lines 524-687). -/

/-- The `try` body of `CodingClient.get_maven_packages`: issue the request
(here an oracle `Except` result) and project out
`Response.Data.InstanceSet`. -/
def get_maven_packages_body (mk : Except PyErr ApiBody) :
    Except PyErr (List PackageRow) := do
  let body ← mk
  pure body.instanceSet

/-- Embedding of `CodingClient.get_maven_packages`: the whole body is
wrapped in `try/except Exception`, returning the empty list on any
failure. -/
def get_maven_packages (mk : Except PyErr ApiBody) : List PackageRow :=
  match get_maven_packages_body mk with
  | .ok packages => packages
  | .error _ => []

/-- The version-info dictionary built by `get_maven_versions` from one
package row (each field read with a `.get` default). -/
structure VersionInfo where
  package : String
  packageVersion : String
  versionId : String
  projectId : Nat
  repository : String
  releaseStatus : Nat
  createdAt : Nat
deriving DecidableEq, Repr

/-- Projection of one package row into a version-info record, as in the
final loop of `get_maven_versions`. -/
def toVersionInfo (projectId : Nat) (repositoryName : String) (row : PackageRow) :
    VersionInfo :=
  { package := row.package.getD "", packageVersion := row.packageVersion.getD "",
    versionId := row.versionId.getD "", projectId := row.projectId.getD projectId,
    repository := row.repository.getD repositoryName,
    releaseStatus := row.releaseStatus.getD 1, createdAt := row.createdAt.getD 0 }

/-- The pagination loop of `get_maven_versions`, embedded with explicit
fuel so that it reduces inside the kernel (the driver supplies
`maxPages + 1` fuel, enough for the page counter — which strictly
increases while the loop guard requires it to stay at most `maxPages` —
to exhaust the guard).  Returns the accumulated package rows together
with the list of page numbers fetched, in fetch order.  Faithful to the
source: stop after 3 consecutive empty pages; on a short non-empty page,
fetch a lookahead page, stop if it is empty, otherwise merge it and jump
two pages ahead; never exceed `maxPages`. -/
def paginateAux (fetchPage : Nat → List PackageRow) (pageSize maxPages : Nat) :
    Nat → Nat → Nat → List PackageRow → List Nat → List PackageRow × List Nat
  | 0, _, _, acc, fetched => (acc, fetched)
  | fuel + 1, pageNumber, consecutiveEmpty, acc, fetched =>
    if pageNumber ≤ maxPages then
      let packages := fetchPage pageNumber
      let fetched := fetched ++ [pageNumber]
      if packages.isEmpty then
        if consecutiveEmpty + 1 ≥ 3 then (acc, fetched)
        else
          paginateAux fetchPage pageSize maxPages fuel (pageNumber + 1)
            (consecutiveEmpty + 1) acc fetched
      else
        let acc := acc ++ packages
        if packages.length < pageSize then
          let nextPagePackages := fetchPage (pageNumber + 1)
          let fetched := fetched ++ [pageNumber + 1]
          if nextPagePackages.isEmpty then (acc, fetched)
          else
            paginateAux fetchPage pageSize maxPages fuel (pageNumber + 2) 0
              (acc ++ nextPagePackages) fetched
        else
          paginateAux fetchPage pageSize maxPages fuel (pageNumber + 1) 0 acc fetched
    else (acc, fetched)

/-- The `PaginationConfig` model (`models.py`): `page_size` default 100,
`max_pages` default 50. -/
structure PaginationConfig where
  page_size : Nat := 100
  max_pages : Nat := 50
deriving DecidableEq, Repr

/-- Embedding of `CodingClient.get_maven_versions` over a per-page request
oracle (`makeRequest p` is the outcome of the `DescribeTeamArtifacts` POST
for page `p`, issued through `get_maven_packages`).  `maxPagesArg` is the
explicit `max_pages` argument (`None` falls back to the pagination config,
or 1000 without one); the page size comes from the pagination config (or
100).  Returns the projected version records together with the list of
page numbers fetched. -/
def get_maven_versions (makeRequest : Nat → Except PyErr ApiBody)
    (paginationConfig : Option PaginationConfig) (maxPagesArg : Option Nat)
    (projectId : Nat) (repositoryName : String) : List VersionInfo × List Nat :=
  let maxPages := maxPagesArg.getD
    (match paginationConfig with | some pc => pc.max_pages | none => 1000)
  let pageSize := match paginationConfig with | some pc => pc.page_size | none => 100
  let fetchPage := fun p => get_maven_packages (makeRequest p)
  let r := paginateAux fetchPage pageSize maxPages (maxPages + 1) 1 0 [] []
  if r.1.isEmpty then ([], r.2)
  else ((r.1.map (toVersionInfo projectId repositoryName)), r.2)

/-! ## Domain model (`src/coding_migrator/models.py`): `MavenArtifact` -/

/-- The `MavenArtifact` model.  File contents are modelled as byte lists
(`List Nat`). -/
structure MavenArtifact where
  group_id : String
  artifact_id : String
  version : String
  packaging : String := "jar"
  file_path : String
  repository : Option String := none
  size : Option Nat := none
  sha1 : Option String := none
  md5 : Option String := none
  download_url : Option String := none
deriving DecidableEq, Repr

/-! ## Memory pipeline (`src/coding_migrator/memory_pipeline_migrator.py`).

The MD5 and SHA-256 digests are abstracted as function parameters
(`md5Hex : String → String` over the coordinate string,
`sha256Hex : List Nat → String` over the payload bytes): the claims are
about which datum feeds which decision, not about the digest internals. -/

/-- The coordinate identifier string
`f"{group_id}:{artifact_id}:{version}:{packaging}"` used by
`_check_if_already_uploaded` and by the success path of
`_upload_worker`. -/
def artifact_identifier (a : MavenArtifact) : String :=
  a.group_id ++ ":" ++ a.artifact_id ++ ":" ++ a.version ++ ":" ++ a.packaging

/-- Embedding of `MemoryPipelineMigrator._check_if_already_uploaded`:
MD5-hash the coordinate identifier and test membership in the loaded
ledger set. -/
def check_if_already_uploaded (md5Hex : String → String)
    (uploadedHashes : List String) (a : MavenArtifact) : Option String :=
  let hashIdentifier := md5Hex (artifact_identifier a)
  if hashIdentifier ∈ uploadedHashes then some hashIdentifier else none

/-- The pre-filter loop of `MemoryPipelineMigrator.migrate_project`:
artifacts whose coordinate hash is already in the ledger are dropped and
counted as `skipped_existing`; the rest are kept in order. -/
def prefilter_artifacts (md5Hex : String → String) (uploadedHashes : List String) :
    List MavenArtifact → List MavenArtifact × Nat
  | [] => ([], 0)
  | a :: rest =>
    let r := prefilter_artifacts md5Hex uploadedHashes rest
    match check_if_already_uploaded md5Hex uploadedHashes a with
    | some _ => (r.1, r.2 + 1)
    | none => (a :: r.1, r.2)

/-- The ledger update performed by `_upload_worker` on a successful
upload: add the MD5 of the coordinate identifier to the
`uploaded_hashes` set (modelled as a duplicate-free insertion into a
list). -/
def record_upload (md5Hex : String → String) (uploadedHashes : List String)
    (a : MavenArtifact) : List String :=
  let mavenHash := md5Hex (artifact_identifier a)
  if mavenHash ∈ uploadedHashes then uploadedHashes else uploadedHashes ++ [mavenHash]

/-- The `MemoryMigrationTask` record. -/
structure MemoryMigrationTask where
  artifact : MavenArtifact
  file_hash : Option String := none
  download_success : Bool := false
  upload_success : Bool := false
  error_message : Option String := none
  file_data : Option (List Nat) := none
deriving DecidableEq, Repr

/-- Observable outcome of one call of
`MemoryPipelineMigrator._download_and_queue`: the task placed on the
upload queue (if any), the change to the in-flight memory counter, the
statistics deltas, the task appended to `failed_tasks` (if any), and the
call's return value. -/
structure MemDownloadStep where
  enqueued : Option MemoryMigrationTask := none
  memoryDelta : Int := 0
  downloaded : Nat := 0
  download_failed : Nat := 0
  upload_failed : Nat := 0
  skipped_existing : Nat := 0
  failedTask : Option MemoryMigrationTask := none
  returnValue : Bool := false
deriving DecidableEq, Repr

/-- Embedding of `MemoryPipelineMigrator._download_and_queue` for one
artifact.  Oracles: `downloadResult` is what `_download_to_memory`
returns (`none` on failure; Python treats empty bytes as falsy, so an
empty payload also takes the failure branch), and `enqueueErr` is
`some msg` when `upload_queue.put` raises (queue full after the 30 s
timeout), `none` when it succeeds.  On a successful download the memory
counter is incremented by the payload length before the enqueue attempt;
an enqueue failure is counted as an upload failure and the task is never
placed on the queue (and the counter is not decremented here). -/
def memory_download_and_queue (md5Hex : String → String)
    (sha256Hex : List Nat → String) (uploadedHashes : List String)
    (stopSet : Bool) (a : MavenArtifact) (downloadResult : Option (List Nat))
    (enqueueErr : Option String) : MemDownloadStep :=
  if stopSet then {}
  else
    match check_if_already_uploaded md5Hex uploadedHashes a with
    | some _ => { skipped_existing := 1, returnValue := true }
    | none =>
      match downloadResult with
      | some fileData =>
        if fileData.isEmpty then
          { download_failed := 1,
            failedTask := some { artifact := a, error_message := some "Download failed" } }
        else
          let task : MemoryMigrationTask :=
            { artifact := a, file_data := some fileData,
              file_hash := some (sha256Hex fileData), download_success := true }
          match enqueueErr with
          | none =>
            { enqueued := some task, memoryDelta := (fileData.length : Int),
              downloaded := 1, returnValue := true }
          | some msg =>
            { memoryDelta := (fileData.length : Int), downloaded := 1,
              upload_failed := 1,
              failedTask := some { task with error_message := some ("Queue error: " ++ msg) },
              returnValue := false }
      | none =>
        { download_failed := 1,
          failedTask := some { artifact := a, error_message := some "Download failed" } }

/-- Outcome of one upload attempt inside `_upload_worker`:
`NexusUploader.upload_file` returning a success dictionary (`.ok true`),
a failure dictionary carrying an error detail (`.ok false` with the
detail), or an exception raised during the upload block (`.error`). -/
inductive UploadAttempt where
  | ok
  | failed (errorDetail : String)
  | raised (msg : String)
deriving DecidableEq, Repr

/-- Observable outcome of `_upload_worker` processing one dequeued task:
statistics deltas, the updated ledger set, the memory-counter change
performed by the guaranteed cleanup step, and the task after processing
(payload released). -/
structure MemUploadStep where
  uploaded : Nat := 0
  upload_failed : Nat := 0
  uploadedHashesAfter : List String
  memoryDelta : Int := 0
  taskAfter : MemoryMigrationTask
deriving DecidableEq, Repr

/-- Embedding of the per-task body of
`MemoryPipelineMigrator._upload_worker`: upload the payload when the task
downloaded successfully and carries data; on success add the coordinate
MD5 to the ledger; in the `finally` block release the payload and
decrement the memory counter by its length, regardless of the upload
outcome. -/
def memory_upload_worker_process (md5Hex : String → String)
    (uploadedHashes : List String) (task : MemoryMigrationTask)
    (uploadResult : UploadAttempt) : MemUploadStep :=
  let processed :=
    if task.download_success && !(task.file_data.getD []).isEmpty
        && !(task.file_data == none) then
      match uploadResult with
      | .ok =>
        { uploaded := 1,
          uploadedHashesAfter := record_upload md5Hex uploadedHashes task.artifact,
          taskAfter := { task with upload_success := true } : MemUploadStep }
      | .failed errorDetail =>
        { upload_failed := 1, uploadedHashesAfter := uploadedHashes,
          taskAfter := { task with error_message := some errorDetail } : MemUploadStep }
      | .raised msg =>
        { upload_failed := 1, uploadedHashesAfter := uploadedHashes,
          taskAfter := { task with error_message := some msg } : MemUploadStep }
    else { uploadedHashesAfter := uploadedHashes, taskAfter := task : MemUploadStep }
  match processed.taskAfter.file_data with
  | some fileData =>
    if fileData.isEmpty then processed
    else
      { processed with
        memoryDelta := (-(Int.ofNat fileData.length)),
        taskAfter := { processed.taskAfter with file_data := none } }
  | none => processed

/-! ## Disk pipeline (`src/coding_migrator/pipeline_migrator.py`) -/

/-- The `MigrationTask` record of the disk-buffered pipeline. -/
structure MigrationTask where
  artifact : MavenArtifact
  temp_file_path : Option String := none
  download_success : Bool := false
  upload_success : Bool := false
  error_message : Option String := none
deriving DecidableEq, Repr

/-- Observable outcome of one call of
`PipelineMigrator._download_and_queue`. -/
structure DiskDownloadStep where
  enqueued : Option MigrationTask := none
  downloaded : Nat := 0
  download_failed : Nat := 0
  failedTask : Option MigrationTask := none
  returnValue : Bool := false
deriving DecidableEq, Repr

/-- Embedding of `PipelineMigrator._download_and_queue` for one artifact.
Oracles: `downloadOk` is what `download_artifact` returns, `tempExists`
whether the temporary file exists afterwards, and `enqueueErr` models
`upload_queue.put` raising (queue full); that exception is caught by the
surrounding `except`, so the artifact is counted as a download failure
even though `task.download_success` is already `True` (which is also the
returned value). -/
def disk_download_and_queue (stopSet : Bool) (a : MavenArtifact)
    (tempPath : String) (downloadOk tempExists : Bool)
    (enqueueErr : Option String) : DiskDownloadStep :=
  if stopSet then {}
  else
    let task : MigrationTask := { artifact := a, temp_file_path := some tempPath }
    if downloadOk && tempExists then
      let task := { task with download_success := true }
      match enqueueErr with
      | none => { enqueued := some task, downloaded := 1, returnValue := true }
      | some msg =>
        { downloaded := 1, download_failed := 1,
          failedTask := some { task with error_message := some msg },
          returnValue := true }
    else
      { download_failed := 1,
        failedTask := some { task with error_message := some "Download failed" } }

/-! ## Standard downloader (`src/coding_migrator/downloader.py`):
`_filter_duplicate_files` -/

/-- The duplicate key built by `_filter_duplicate_files`:
`f"{group_id}:{artifact_id}:{version}:{packaging}"` (the same colon-join
as the ledger identifier). -/
def file_key (a : MavenArtifact) : String := artifact_identifier a

/-- The loop of `_filter_duplicate_files` with its `seen_files` set made
explicit. -/
def filter_duplicate_files_aux (seen : List String) :
    List MavenArtifact → List MavenArtifact
  | [] => []
  | a :: rest =>
    if file_key a ∈ seen then filter_duplicate_files_aux seen rest
    else a :: filter_duplicate_files_aux (file_key a :: seen) rest

/-- Embedding of `MavenDownloader._filter_duplicate_files`: keep the first
record for each distinct colon-joined coordinate key. -/
def filter_duplicate_files (artifacts : List MavenArtifact) : List MavenArtifact :=
  filter_duplicate_files_aux [] artifacts

/-! ## Concrete fixtures used by witnesses and counterexamples -/

/-- Concrete uploader state for the C1 counterexample: no configured
snapshot/release repositories, and one maven2 repository whose name
matches "snap" only after lowercasing. -/
def uploaderStateC1 : UploaderState :=
  { repository := "maven-releases", snapshot_repo := none, releases_repo := none,
    repositories := [{ name := "SNAP-REPO", format := "maven2" }] }

/-- First record of the C8 witness pair (the spec's own example),
identical to the second in all four coordinate fields. -/
def artifactC8x : MavenArtifact :=
  { group_id := "a", artifact_id := "b", version := "1.0", packaging := "jar",
    file_path := "/x" }

/-- Second record of the C8 witness pair. -/
def artifactC8y : MavenArtifact :=
  { group_id := "a", artifact_id := "b", version := "1.0", packaging := "jar",
    file_path := "/y" }

/-- First record of the C8 counterexample pair: its version "c:1"
embeds a colon. -/
def artifactC8p : MavenArtifact :=
  { group_id := "a", artifact_id := "b", version := "c:1", packaging := "jar",
    file_path := "/x" }

/-- Second record of the C8 counterexample pair: a different coordinate
tuple (and a different version) whose colon-join collides with the
first's. -/
def artifactC8q : MavenArtifact :=
  { group_id := "a:b", artifact_id := "c", version := "1", packaging := "jar",
    file_path := "/y" }

/-- Concrete uploader state for the C4 witness. -/
def uploaderStateC4 : UploaderState :=
  { repository := "maven-releases", snapshot_repo := none,
    releases_repo := some "releases",
    repositories := [{ name := "releases", format := "maven2" }] }

/-- Concrete request oracle for the C5 counterexample: every post is
answered with the upstream `RequestLimitExceeded` error. -/
def attemptsC5 : Nat → AttemptResult := fun _ =>
  .httpOk { err := some { code := some "RequestLimitExceeded",
                          message := some "Too many requests" },
            instanceSet := [] }

/-- First artifact for the C2 witness (already in the ledger under the
identity stand-in digest). -/
def artifactC2a : MavenArtifact :=
  { group_id := "g", artifact_id := "a", version := "1.0", packaging := "jar",
    file_path := "g/a/1.0/a-1.0.jar" }

/-- Second artifact for the C2 witness (not in the ledger). -/
def artifactC2b : MavenArtifact :=
  { group_id := "g", artifact_id := "b", version := "1.0", packaging := "jar",
    file_path := "g/b/1.0/b-1.0.jar" }

/-- Successfully downloaded task for the C2 witness. -/
def taskC2 : MemoryMigrationTask :=
  { artifact := artifactC2b, download_success := true, file_data := some [7] }

/-- Concrete artifact for the C7 counterexample. -/
def artifactC7 : MavenArtifact :=
  { group_id := "com.example", artifact_id := "lib", version := "1.0",
    packaging := "jar", file_path := "com.example/lib/1.0/lib-1.0.jar" }

/-- A concrete package row for the C3 witness oracle. -/
def packageRowC3 : PackageRow :=
  { package := some "com.example:lib", packageVersion := some "1.0",
    versionId := none, projectId := none, repository := none,
    releaseStatus := none, createdAt := none }

/-- The C3 witness oracle: pages 1 and 2 carry exactly 2 rows each and
every later page is empty. -/
def makeReqC3 : Nat → Except PyErr ApiBody := fun p =>
  if p ≤ 2 then .ok { err := none, instanceSet := [packageRowC3, packageRowC3] }
  else .ok { err := none, instanceSet := [] }

/-! ## Theorems -/

/-- C9 (amended): `parse_maven_coordinates` splits a colon-delimited
string into groupId, artifactId, version and packaging, with packaging
defaulting to "jar" when only three parts are given; for every input with
fewer than 3 colon-separated parts it raises the built-in `ValueError`
(which is not the taxonomy's Configuration-class error). -/
theorem parse_maven_coordinates_spec (s : String) :
    (∀ g a v rest, strSplitOn s ':' = g :: a :: v :: rest →
      parse_maven_coordinates s =
        .ok { groupId := g, artifactId := a, version := v,
              packaging := rest.headD "jar" }) ∧
    ((strSplitOn s ':').length < 3 →
      parse_maven_coordinates s =
        .error (.valueError ("Invalid Maven coordinates: " ++ s)) ∧
      exceptIsConfigurationError (parse_maven_coordinates s) = false) := by
  constructor
  · intro g a v rest hsplit
    unfold parse_maven_coordinates
    rw [hsplit]
    have hnotlt : ¬ (g :: a :: v :: rest).length < 3 := by
      simp only [List.length_cons]; omega
    rw [if_neg hnotlt]
    cases rest with
    | nil => simp [List.getD]
    | cons p ps =>
      have hgt : (g :: a :: v :: p :: ps).length > 3 := by
        simp only [List.length_cons]; omega
      simp [List.getD, if_pos hgt]
  · intro hlt
    unfold parse_maven_coordinates
    rw [if_pos hlt]
    exact ⟨rfl, by simp [exceptIsConfigurationError, PyErr.isConfigurationErrorClass,
      parse_maven_coordinates, if_pos hlt]⟩

/-- Witness for C9's theorem at concrete inputs: a three-part coordinate
string parses with default packaging "jar", and a two-part string raises
`ValueError`. -/
theorem parse_maven_coordinates_spec_witness :
    parse_maven_coordinates "com.example:lib:1.0" =
      .ok { groupId := "com.example", artifactId := "lib", version := "1.0",
            packaging := "jar" } ∧
    parse_maven_coordinates "a:b" =
      .error (.valueError "Invalid Maven coordinates: a:b") :=
  ⟨(parse_maven_coordinates_spec "com.example:lib:1.0").1
      "com.example" "lib" "1.0" [] (by decide),
    ((parse_maven_coordinates_spec "a:b").2 (by decide)).1⟩

/-- C9 counterexample to the claim as stated: on the 1-part input "ab"
the function raises the built-in `ValueError`, not an instance of the
taxonomy's `ConfigurationError` class (which no code path ever raises). -/
theorem parse_maven_coordinates_raises_value_error :
    parse_maven_coordinates "ab" =
      .error (.valueError "Invalid Maven coordinates: ab") ∧
    exceptIsConfigurationError (parse_maven_coordinates "ab") = false := by decide

/-- C1 (amended): for every version string and fixed repository list and
configuration, `determine_repository` returns exactly the repository the
claim describes, with the two corrections the code forces: name
containment ("snapshot"/"snap"/"release"/"hosted") is tested on the
lowercased repository name, and a configured snapshot/release repository
name counts as set only when non-empty (Python truthiness). -/
theorem determine_repository_matches_claim (st : UploaderState) (version : String) :
    determine_repository st version = determine_repository_claim_ci st version := by
  unfold determine_repository determine_repository_claim_ci
    find_snapshot_repository find_releases_repository
  by_cases hsv : is_snapshot_version version = true
  · simp only [hsv, if_true]
    cases ht : truthyStr st.snapshot_repo
    · cases h1 : st.repositories.find? (fun repo =>
          strContainsSub (strLower repo.name) "snapshot" && repo.format == "maven2") with
      | none =>
        cases h2 : st.repositories.find? (fun repo =>
            strContainsSub (strLower repo.name) "snap" && repo.format == "maven2") <;>
          simp [h1, h2]
      | some r => simp [h1]
    · simp
  · simp only [hsv]
    cases ht : truthyStr st.releases_repo
    · cases h1 : st.repositories.find? (fun repo =>
          strContainsSub (strLower repo.name) "release" && repo.format == "maven2") with
      | none =>
        cases h2 : st.repositories.find? (fun repo =>
            strContainsSub (strLower repo.name) "hosted" && repo.format == "maven2") <;>
          simp [hsv, h1, h2]
      | some r => simp [hsv, h1]
    · simp [hsv]

/-- C1 counterexample to the claim as stated: the source matches the
lowercased repository name, so version "1.0-SNAPSHOT" routes to
"SNAP-REPO", while the claim's literal (case-sensitive) containment test
would fall through to the configured default repository. -/
theorem determine_repository_claim_counterexample :
    determine_repository uploaderStateC1 "1.0-SNAPSHOT" = "SNAP-REPO" ∧
    determine_repository_claim uploaderStateC1 "1.0-SNAPSHOT" = "maven-releases" ∧
    determine_repository uploaderStateC1 "1.0-SNAPSHOT" ≠
      determine_repository_claim uploaderStateC1 "1.0-SNAPSHOT" := by decide

/-- Every record kept by the duplicate filter has a key outside the
`seen` set it started from. -/
theorem filter_duplicate_files_aux_key_not_seen (seen : List String)
    (artifacts : List MavenArtifact) :
    ∀ b ∈ filter_duplicate_files_aux seen artifacts, file_key b ∉ seen := by
  induction artifacts generalizing seen with
  | nil => intro b hb; simp [filter_duplicate_files_aux] at hb
  | cons a rest ih =>
    intro b hb
    unfold filter_duplicate_files_aux at hb
    by_cases hmem : file_key a ∈ seen
    · rw [if_pos hmem] at hb
      exact ih seen b hb
    · rw [if_neg hmem] at hb
      rcases List.mem_cons.mp hb with rfl | hb'
      · exact hmem
      · have := ih (file_key a :: seen) b hb'
        exact fun hs => this (List.mem_cons_of_mem _ hs)

/-- The duplicate filter keeps a sublist of its input. -/
theorem filter_duplicate_files_aux_sublist (seen : List String)
    (artifacts : List MavenArtifact) :
    (filter_duplicate_files_aux seen artifacts).Sublist artifacts := by
  induction artifacts generalizing seen with
  | nil => simp [filter_duplicate_files_aux]
  | cons a rest ih =>
    unfold filter_duplicate_files_aux
    by_cases hmem : file_key a ∈ seen
    · rw [if_pos hmem]
      exact (ih seen).trans (List.sublist_cons_self a rest)
    · rw [if_neg hmem]
      exact List.Sublist.cons₂ a (ih (file_key a :: seen))

/-- The keys of the records kept by the duplicate filter are pairwise
distinct. -/
theorem filter_duplicate_files_aux_keys_nodup (seen : List String)
    (artifacts : List MavenArtifact) :
    ((filter_duplicate_files_aux seen artifacts).map file_key).Nodup := by
  induction artifacts generalizing seen with
  | nil => simp [filter_duplicate_files_aux]
  | cons a rest ih =>
    unfold filter_duplicate_files_aux
    by_cases hmem : file_key a ∈ seen
    · rw [if_pos hmem]; exact ih seen
    · rw [if_neg hmem]
      refine List.nodup_cons.mpr ⟨?_, ih (file_key a :: seen)⟩
      intro hk
      rcases List.mem_map.mp hk with ⟨b, hb, hkey⟩
      exact filter_duplicate_files_aux_key_not_seen _ _ b hb
        (hkey ▸ List.mem_cons_self _ _)

/-- Every input record's key survives the duplicate filter (or was
already in the starting `seen` set). -/
theorem filter_duplicate_files_aux_covers (seen : List String)
    (artifacts : List MavenArtifact) :
    ∀ a ∈ artifacts, file_key a ∈ seen ∨
      ∃ b ∈ filter_duplicate_files_aux seen artifacts, file_key b = file_key a := by
  induction artifacts generalizing seen with
  | nil => intro a ha; simp at ha
  | cons x rest ih =>
    intro a ha
    unfold filter_duplicate_files_aux
    by_cases hmem : file_key x ∈ seen
    · rw [if_pos hmem]
      rcases List.mem_cons.mp ha with rfl | ha'
      · exact .inl hmem
      · exact ih seen a ha'
    · rw [if_neg hmem]
      rcases List.mem_cons.mp ha with rfl | ha'
      · exact .inr ⟨a, List.mem_cons_self _ _, rfl⟩
      · rcases ih (file_key x :: seen) a ha' with hseen | ⟨b, hb, hkey⟩
        · rcases List.mem_cons.mp hseen with heq | hs
          · exact .inr ⟨x, List.mem_cons_self _ _, heq.symm⟩
          · exact .inl hs
        · exact .inr ⟨b, List.mem_cons_of_mem _ hb, hkey⟩

/-- C8 (amended): the standard downloader's duplicate filter keeps
exactly one record — the first occurrence — per distinct colon-joined
coordinate key `groupId:artifactId:version:packaging` (which coincides
with the `(groupId, artifactId, version, packaging)` tuple whenever the
four fields contain no colon), retaining every distinct key; in
particular two records with the same key but different `file_path` or
`download_url` yield a single-entry result. -/
theorem filter_duplicate_files_one_per_key (artifacts : List MavenArtifact) :
    ((filter_duplicate_files artifacts).map file_key).Nodup ∧
    (filter_duplicate_files artifacts).Sublist artifacts ∧
    (∀ a ∈ artifacts,
      ∃ b ∈ filter_duplicate_files artifacts, file_key b = file_key a) ∧
    (∀ x y : MavenArtifact, file_key x = file_key y →
      filter_duplicate_files [x, y] = [x]) := by
  refine ⟨filter_duplicate_files_aux_keys_nodup [] artifacts,
    filter_duplicate_files_aux_sublist [] artifacts, ?_, ?_⟩
  · intro a ha
    rcases filter_duplicate_files_aux_covers [] artifacts a ha with hseen | h
    · simp at hseen
    · exact h
  · intro x y hkey
    simp [filter_duplicate_files, filter_duplicate_files_aux, hkey]

/-- Witness for C8's theorem at the spec's concrete example: the pair
`[("a","b","1.0","jar","/x"), ("a","b","1.0","jar","/y")]` filters to a
single-entry result. -/
theorem filter_duplicate_files_one_per_key_witness :
    filter_duplicate_files [artifactC8x, artifactC8y] = [artifactC8x] ∧
    (filter_duplicate_files [artifactC8x, artifactC8y]).length = 1 := by
  have h := (filter_duplicate_files_one_per_key [artifactC8x, artifactC8y]).2.2.2
    artifactC8x artifactC8y (by decide)
  exact ⟨h, by rw [h]; rfl⟩

/-- C8 counterexample to the claim as stated: two records with distinct
`(groupId, artifactId, version, packaging)` tuples — and distinct
versions — whose colon-joined keys collide are conflated into one entry,
so the filter does not keep one record per distinct tuple nor retain
every distinct version. -/
theorem filter_duplicate_files_conflates_tuples :
    filter_duplicate_files [artifactC8p, artifactC8q] = [artifactC8p] ∧
    (filter_duplicate_files [artifactC8p, artifactC8q]).length = 1 ∧
    artifactC8p.version ≠ artifactC8q.version ∧
    artifactC8p.group_id ≠ artifactC8q.group_id := by decide

/-- C4: for an existing local file and a well-formed Maven path (at least
4 segments), `upload_file` returns a result dictionary (never raises):
its success flag is true exactly when the destination's HTTP status is
201 or 204, and any other status yields a failure result carrying the
response body (or its parsed `error_details` field) as error detail. -/
theorem upload_file_success_iff_201_or_204 (st : UploaderState)
    (filePath mavenPath : String) (resp : HttpResponse)
    (hparts : 4 ≤ (strSplitOn (strReplaceChar mavenPath '\\' '/') '/').length) :
    (upload_file st true filePath mavenPath (.ok resp)).isOk = true ∧
    ∀ r, upload_file st true filePath mavenPath (.ok resp) = .ok r →
      (r.success = true ↔ (resp.status = 201 ∨ resp.status = 204)) ∧
      (¬(resp.status = 201 ∨ resp.status = 204) →
        r.success = false ∧ r.status_code = some resp.status ∧
        r.error = some (resp.errorDetailsJson.getD resp.text)) := by
  unfold upload_file
  simp only [Bool.not_true, Bool.false_eq_true, if_false, if_pos hparts]
  by_cases h : (resp.status == 201 || resp.status == 204) = true
  · rw [if_pos h]
    refine ⟨rfl, ?_⟩
    intro r hr
    injection hr with hr
    subst hr
    have hor : resp.status = 201 ∨ resp.status = 204 := by
      simpa using h
    exact ⟨by simp [hor], fun hno => absurd hor hno⟩
  · rw [if_neg h]
    refine ⟨rfl, ?_⟩
    intro r hr
    injection hr with hr
    subst hr
    have hnor : ¬(resp.status = 201 ∨ resp.status = 204) := by
      simpa using h
    exact ⟨by simp [hnor], fun _ => ⟨rfl, rfl, rfl⟩⟩

/-- Witness for C4's theorem at a concrete input: a 400 response on a
4-segment Maven path yields a failure result whose error detail is the
response body. -/
theorem upload_file_success_iff_201_or_204_witness :
    (upload_file uploaderStateC4 true "/tmp/lib-1.0.jar"
      "com/example/lib/1.0/lib-1.0.jar"
      (.ok { status := 400, text := "bad request", errorDetailsJson := none })).isOk
      = true ∧
    ∀ r, upload_file uploaderStateC4 true "/tmp/lib-1.0.jar"
        "com/example/lib/1.0/lib-1.0.jar"
        (.ok { status := 400, text := "bad request", errorDetailsJson := none }) = .ok r →
      (r.success = true ↔ ((400 : Nat) = 201 ∨ (400 : Nat) = 204)) ∧
      (¬((400 : Nat) = 201 ∨ (400 : Nat) = 204) →
        r.success = false ∧ r.status_code = some 400 ∧
        r.error = some ((none : Option String).getD "bad request")) :=
  upload_file_success_iff_201_or_204 uploaderStateC4 "/tmp/lib-1.0.jar"
    "com/example/lib/1.0/lib-1.0.jar"
    { status := 400, text := "bad request", errorDetailsJson := none } (by decide)

/-- One non-final iteration of the retry loop under a rate-limit answer:
the loop moves on to the next remaining attempt, adding one POST. -/
theorem make_request_retry_step (attempts : Nat → AttemptResult)
    (attemptIdx : Nat) (restRetries : List Nat) (hrest : restRetries.isEmpty = false)
    (b : ApiBody) (e : ApiErrObj) (ha : attempts attemptIdx = .httpOk b)
    (hb : b.err = some e) (hcode : e.code = some "RequestLimitExceeded") :
    make_request_retry attempts (attemptIdx :: restRetries) =
      ((make_request_retry attempts restRetries).1,
        (make_request_retry attempts restRetries).2 + 1) := by
  conv_lhs => rw [make_request_retry]
  rw [ha]
  simp [hb, hcode, hrest]

/-- The final iteration of the retry loop under a rate-limit answer: the
loop raises a `RequestException` carrying the upstream code and message. -/
theorem make_request_retry_last (attempts : Nat → AttemptResult)
    (attemptIdx : Nat) (b : ApiBody) (e : ApiErrObj)
    (ha : attempts attemptIdx = .httpOk b) (hb : b.err = some e)
    (hcode : e.code = some "RequestLimitExceeded") :
    make_request_retry attempts [attemptIdx] =
      (.error (.requestException
        ("API Error: RequestLimitExceeded - " ++ e.message.getD "Unknown error"
          ++ " (max retries exceeded)")), 1) := by
  conv_lhs => rw [make_request_retry]
  rw [ha]
  simp [hb, hcode, pyReprOptStr]

/-- C5 (amended): when the initial response carries the upstream error
code `RequestLimitExceeded` and all 3 retries also do, `_make_request`
raises the transport library's `RequestException` — not an instance of
the taxonomy's `APIError` class — whose message carries the upstream
code and message, after 4 HTTP posts in total; an upstream error with any
other code (or a missing code) is raised immediately as a
`RequestException` carrying the code and message, after a single HTTP
post and without any retry. -/
theorem make_request_rate_limit_retry_exhaustion (attempts : Nat → AttemptResult)
    (body0 : ApiBody) (e0 : ApiErrObj)
    (h0 : attempts 0 = .httpOk body0) (hb0 : body0.err = some e0) :
    (∀ c, e0.code = some c → c ≠ "RequestLimitExceeded" →
      make_request attempts =
        (.error (.requestException
          ("API Error: " ++ c ++ " - " ++ e0.message.getD "Unknown error")), 1)) ∧
    (e0.code = none →
      make_request attempts =
        (.error (.requestException
          ("API Error: Unknown - " ++ e0.message.getD "Unknown error")), 1)) ∧
    (e0.code = some "RequestLimitExceeded" →
      ∀ b1 e1 b2 e2 b3 e3,
        attempts 1 = .httpOk b1 → b1.err = some e1 →
        e1.code = some "RequestLimitExceeded" →
        attempts 2 = .httpOk b2 → b2.err = some e2 →
        e2.code = some "RequestLimitExceeded" →
        attempts 3 = .httpOk b3 → b3.err = some e3 →
        e3.code = some "RequestLimitExceeded" →
        make_request attempts =
          (.error (.requestException
            ("API Error: RequestLimitExceeded - " ++ e3.message.getD "Unknown error"
              ++ " (max retries exceeded)")), 4)) := by
  refine ⟨?_, ?_, ?_⟩
  · intro c hc hne
    unfold make_request
    rw [h0]
    simp [hb0, hc, hne]
  · intro hc
    unfold make_request
    rw [h0]
    simp [hb0, hc]
  · intro hc b1 e1 b2 e2 b3 e3 h1 hb1 hc1 h2 hb2 hc2 h3 hb3 hc3
    unfold make_request
    rw [h0]
    simp only [hb0, hc, beq_self_eq_true, if_true]
    rw [make_request_retry_step attempts 1 [2, 3] (by decide) b1 e1 h1 hb1 hc1,
      make_request_retry_step attempts 2 [3] (by decide) b2 e2 h2 hb2 hc2,
      make_request_retry_last attempts 3 b3 e3 h3 hb3 hc3]

/-- Witness for C5's theorem at concrete inputs: a non-rate-limit
upstream error raises immediately after one post, and a persistent
rate-limit error raises after the initial post plus 3 retries. -/
theorem make_request_rate_limit_retry_exhaustion_witness :
    make_request (fun _ => .httpOk
        { err := some { code := some "InvalidParameter", message := some "boom" },
          instanceSet := [] }) =
      (.error (.requestException "API Error: InvalidParameter - boom"), 1) ∧
    make_request (fun _ => .httpOk
        { err := some { code := some "RequestLimitExceeded", message := some "busy" },
          instanceSet := [] }) =
      (.error (.requestException
        "API Error: RequestLimitExceeded - busy (max retries exceeded)"), 4) := by
  constructor
  · have h := (make_request_rate_limit_retry_exhaustion
      (fun _ => .httpOk
        { err := some { code := some "InvalidParameter", message := some "boom" },
          instanceSet := [] }) _ _ rfl rfl).1 "InvalidParameter" rfl (by decide)
    rw [h]
    decide
  · have h := ((make_request_rate_limit_retry_exhaustion
      (fun _ => .httpOk
        { err := some { code := some "RequestLimitExceeded", message := some "busy" },
          instanceSet := [] }) _ _ rfl rfl).2.2 rfl _ _ _ _ _ _
      rfl rfl rfl rfl rfl rfl rfl rfl rfl)
    rw [h]
    decide

/-- C5 counterexample to the claim as stated: after exhausting all 3
retries the raised error is the transport library's `RequestException`
(carrying the code and message only inside its message string), not an
instance of the taxonomy's `APIError` class. -/
theorem make_request_error_not_api_class :
    (make_request attemptsC5).1 =
      .error (.requestException
        "API Error: RequestLimitExceeded - Too many requests (max retries exceeded)") ∧
    exceptIsApiError (make_request attemptsC5).1 = false := by decide

/-- The pre-filter keeps exactly the artifacts whose coordinate hash is
not in the ledger and counts the others. -/
theorem prefilter_artifacts_eq (md5Hex : String → String)
    (uploadedHashes : List String) (artifacts : List MavenArtifact) :
    (prefilter_artifacts md5Hex uploadedHashes artifacts).1 =
      artifacts.filter
        (fun x => decide (md5Hex (artifact_identifier x) ∉ uploadedHashes)) ∧
    (prefilter_artifacts md5Hex uploadedHashes artifacts).2 =
      artifacts.countP
        (fun x => decide (md5Hex (artifact_identifier x) ∈ uploadedHashes)) := by
  induction artifacts with
  | nil => exact ⟨rfl, rfl⟩
  | cons a rest ih =>
    by_cases hmem : md5Hex (artifact_identifier a) ∈ uploadedHashes <;>
      simp [prefilter_artifacts, check_if_already_uploaded, hmem,
        List.filter_cons, List.countP_cons, ih.1, ih.2]

/-- The skip decision of the memory pipeline's download step is exactly
"the coordinate MD5 is in the ledger", whatever the payload bytes and the
content-hash function. -/
theorem memory_download_skip_decision (md5Hex : String → String)
    (sha256Hex : List Nat → String) (uploadedHashes : List String)
    (a : MavenArtifact) (fileData : Option (List Nat)) (enqueueErr : Option String) :
    (memory_download_and_queue md5Hex sha256Hex uploadedHashes false a
        fileData enqueueErr).skipped_existing =
      if md5Hex (artifact_identifier a) ∈ uploadedHashes then 1 else 0 := by
  by_cases hmem : md5Hex (artifact_identifier a) ∈ uploadedHashes
  · simp [memory_download_and_queue, check_if_already_uploaded, hmem]
  · cases fileData with
    | none => simp [memory_download_and_queue, check_if_already_uploaded, hmem]
    | some d =>
      by_cases hd : d.isEmpty <;> cases enqueueErr <;>
        simp [memory_download_and_queue, check_if_already_uploaded, hmem, hd]

/-- The upload worker's ledger update: a task that was successfully
downloaded with a non-empty payload has the coordinate MD5 recorded on a
successful upload; any other outcome leaves the ledger unchanged. -/
theorem memory_upload_worker_hashes (md5Hex : String → String)
    (uploadedHashes : List String) (t : MemoryMigrationTask)
    (uploadResult : UploadAttempt) :
    (memory_upload_worker_process md5Hex uploadedHashes t
        uploadResult).uploadedHashesAfter =
      if t.download_success && !(t.file_data.getD []).isEmpty
          && !(t.file_data == none) then
        match uploadResult with
        | .ok => record_upload md5Hex uploadedHashes t.artifact
        | .failed _ => uploadedHashes
        | .raised _ => uploadedHashes
      else uploadedHashes := by
  unfold memory_upload_worker_process
  cases hcond : (t.download_success && !(t.file_data.getD []).isEmpty
      && !(t.file_data == none)) <;>
    cases uploadResult <;>
      cases htf : t.file_data with
      | none => simp [htf]
      | some d' => by_cases hd' : d'.isEmpty = true <;> simp [htf, hd']

/-- The upload worker's guaranteed cleanup: the memory counter is
decremented by the payload length whenever the dequeued task carries a
non-empty payload, regardless of the upload outcome. -/
theorem memory_upload_worker_delta (md5Hex : String → String)
    (uploadedHashes : List String) (t : MemoryMigrationTask)
    (uploadResult : UploadAttempt) :
    (memory_upload_worker_process md5Hex uploadedHashes t
        uploadResult).memoryDelta =
      match t.file_data with
      | some d => if d.isEmpty then 0 else (-(Int.ofNat d.length))
      | none => 0 := by
  unfold memory_upload_worker_process
  cases hcond : (t.download_success && !(t.file_data.getD []).isEmpty
      && !(t.file_data == none)) <;>
    cases uploadResult <;>
      cases htf : t.file_data with
      | none => simp [htf]
      | some d' => by_cases hd' : d'.isEmpty = true <;> simp [htf, hd']

/-- C2: in the memory pipeline the skip decision and ledger membership
are based solely on the MD5 of the coordinate string
`groupId:artifactId:version:packaging`: the pre-filter keeps exactly the
artifacts whose coordinate hash is absent from the loaded ledger and
counts the others as `skipped_existing`; an artifact whose coordinate
hash is in the loaded ledger is never kept (hence never downloaded or
uploaded) and is also skipped by the download step's defensive re-check;
a successful upload adds exactly the coordinate hash to the ledger while
a failed one leaves it unchanged; and the per-payload SHA-256 content
hash plays no part: the skip decision is the same under any content-hash
function and equals ledger membership of the coordinate MD5. -/
theorem memory_ledger_skip_by_coordinate_md5 (md5Hex : String → String)
    (sha256Hex sha256Hex' : List Nat → String) (uploadedHashes : List String)
    (artifacts : List MavenArtifact) (a : MavenArtifact)
    (t : MemoryMigrationTask) (d : List Nat) (fileData : Option (List Nat))
    (enqueueErr : Option String) :
    ((prefilter_artifacts md5Hex uploadedHashes artifacts).1 =
      artifacts.filter
        (fun x => decide (md5Hex (artifact_identifier x) ∉ uploadedHashes)) ∧
     (prefilter_artifacts md5Hex uploadedHashes artifacts).2 =
      artifacts.countP
        (fun x => decide (md5Hex (artifact_identifier x) ∈ uploadedHashes))) ∧
    (md5Hex (artifact_identifier a) ∈ uploadedHashes →
      a ∉ (prefilter_artifacts md5Hex uploadedHashes artifacts).1 ∧
      memory_download_and_queue md5Hex sha256Hex uploadedHashes false a
          fileData enqueueErr =
        { skipped_existing := 1, returnValue := true }) ∧
    (t.download_success = true → t.file_data = some d → d ≠ [] →
      ∀ h, h ∈ (memory_upload_worker_process md5Hex uploadedHashes t
          .ok).uploadedHashesAfter ↔
        (h ∈ uploadedHashes ∨ h = md5Hex (artifact_identifier t.artifact))) ∧
    (∀ det, (memory_upload_worker_process md5Hex uploadedHashes t
        (.failed det)).uploadedHashesAfter = uploadedHashes) ∧
    ((memory_download_and_queue md5Hex sha256Hex uploadedHashes false a
        fileData enqueueErr).skipped_existing =
      (memory_download_and_queue md5Hex sha256Hex' uploadedHashes false a
        fileData enqueueErr).skipped_existing ∧
     (memory_download_and_queue md5Hex sha256Hex uploadedHashes false a
        fileData enqueueErr).skipped_existing =
      if md5Hex (artifact_identifier a) ∈ uploadedHashes then 1 else 0) := by
  refine ⟨prefilter_artifacts_eq md5Hex uploadedHashes artifacts, ?_, ?_, ?_, ?_, ?_⟩
  · intro hmem
    constructor
    · rw [(prefilter_artifacts_eq md5Hex uploadedHashes artifacts).1]
      simp [List.mem_filter, hmem]
    · simp [memory_download_and_queue, check_if_already_uploaded, hmem]
  · intro hds hfd hne h
    have hcond : (t.download_success && !(t.file_data.getD []).isEmpty
        && !(t.file_data == none)) = true := by
      simp [hds, hfd, hne]
    rw [memory_upload_worker_hashes, hcond]
    simp only [if_true]
    unfold record_upload
    by_cases hin : md5Hex (artifact_identifier t.artifact) ∈ uploadedHashes
    · rw [if_pos hin]
      constructor
      · exact fun hh => .inl hh
      · rintro (hh | rfl)
        · exact hh
        · exact hin
    · rw [if_neg hin]
      simp [List.mem_append]
  · intro det
    rw [memory_upload_worker_hashes]
    cases hcond : (t.download_success && !(t.file_data.getD []).isEmpty
        && !(t.file_data == none)) <;> simp
  · exact (memory_download_skip_decision md5Hex sha256Hex uploadedHashes a
        fileData enqueueErr).trans
      (memory_download_skip_decision md5Hex sha256Hex' uploadedHashes a
        fileData enqueueErr).symm
  · exact memory_download_skip_decision md5Hex sha256Hex uploadedHashes a
      fileData enqueueErr

/-- Witness for C2's theorem at concrete inputs (the identity function
standing in for the MD5 digest): the ledgered artifact is dropped by the
pre-filter, and a successful upload of the other artifact records exactly
its coordinate hash. -/
theorem memory_ledger_skip_by_coordinate_md5_witness :
    artifactC2a ∉ (prefilter_artifacts (fun s => s) ["g:a:1.0:jar"]
      [artifactC2a, artifactC2b]).1 ∧
    ("g:b:1.0:jar" ∈ (memory_upload_worker_process (fun s => s)
        ["g:a:1.0:jar"] taskC2 .ok).uploadedHashesAfter ↔
      ("g:b:1.0:jar" ∈ ["g:a:1.0:jar"] ∨
        "g:b:1.0:jar" = artifact_identifier taskC2.artifact)) := by
  have h := memory_ledger_skip_by_coordinate_md5 (fun s => s) (fun _ => "h1")
    (fun _ => "h2") ["g:a:1.0:jar"] [artifactC2a, artifactC2b] artifactC2a
    taskC2 [7] (some [7]) none
  exact ⟨(h.2.1 (by decide)).1, h.2.2.1 rfl rfl (by decide) "g:b:1.0:jar"⟩

/-- C6: in both pipeline migrators a task reaches the bounded upload
queue only if its download phase succeeded — its `download_success` flag
is set and its payload (temporary file, resp. non-empty in-memory bytes)
exists — and a task whose download failed is counted as a download
failure, appended to the failed-task list, and never enqueued. -/
theorem queue_only_fed_successful_downloads (md5Hex : String → String)
    (sha256Hex : List Nat → String) (uploadedHashes : List String)
    (a am : MavenArtifact) (tempPath : String) (downloadOk tempExists : Bool)
    (enqueueErrD enqueueErrM : Option String) (fileData : Option (List Nat))
    (hskip : check_if_already_uploaded md5Hex uploadedHashes am = none) :
    (∀ t, (disk_download_and_queue false a tempPath downloadOk tempExists
        enqueueErrD).enqueued = some t →
      t.download_success = true ∧ t.temp_file_path = some tempPath ∧
      downloadOk = true ∧ tempExists = true) ∧
    (downloadOk = false ∨ tempExists = false →
      (disk_download_and_queue false a tempPath downloadOk tempExists
        enqueueErrD).enqueued = none ∧
      (disk_download_and_queue false a tempPath downloadOk tempExists
        enqueueErrD).download_failed = 1 ∧
      (disk_download_and_queue false a tempPath downloadOk tempExists
        enqueueErrD).failedTask.isSome = true) ∧
    (∀ t, (memory_download_and_queue md5Hex sha256Hex uploadedHashes false am
        fileData enqueueErrM).enqueued = some t →
      t.download_success = true ∧ ∃ d, t.file_data = some d ∧ d ≠ []) ∧
    (fileData = none ∨ fileData = some [] →
      (memory_download_and_queue md5Hex sha256Hex uploadedHashes false am
        fileData enqueueErrM).enqueued = none ∧
      (memory_download_and_queue md5Hex sha256Hex uploadedHashes false am
        fileData enqueueErrM).download_failed = 1 ∧
      (memory_download_and_queue md5Hex sha256Hex uploadedHashes false am
        fileData enqueueErrM).failedTask.isSome = true) := by
  refine ⟨?_, ?_, ?_, ?_⟩
  · intro t ht
    unfold disk_download_and_queue at ht
    by_cases hdl : (downloadOk && tempExists) = true
    · rcases Bool.and_eq_true_iff.mp hdl with ⟨h1, h2⟩
      rw [if_neg (by simp)] at ht
      simp only [hdl, if_true] at ht
      cases enqueueErrM with
      | _ =>
        cases henq : enqueueErrD with
        | none =>
          rw [henq] at ht
          simp only [MemDownloadStep.mk.injEq] at ht
          injection ht with ht
          subst ht
          exact ⟨rfl, rfl, h1, h2⟩
        | some msg =>
          rw [henq] at ht
          simp at ht
    · rw [if_neg (by simp)] at ht
      simp only [Bool.not_eq_true] at hdl
      simp [hdl] at ht
  · intro hfail
    have hdl : (downloadOk && tempExists) = false := by
      rcases hfail with h | h <;> simp [h]
    unfold disk_download_and_queue
    rw [if_neg (by simp)]
    simp [hdl]
  · intro t ht
    unfold memory_download_and_queue at ht
    rw [if_neg (by simp), hskip] at ht
    cases hfd : fileData with
    | none => rw [hfd] at ht; simp at ht
    | some dta =>
      rw [hfd] at ht
      by_cases hde : dta.isEmpty = true
      · simp [hde] at ht
      · simp only [hde, Bool.false_eq_true, if_false] at ht
        cases henq : enqueueErrM with
        | none =>
          rw [henq] at ht
          simp only [Option.some.injEq] at ht
          subst ht
          exact ⟨rfl, dta, rfl, by simpa using hde⟩
        | some msg =>
          rw [henq] at ht
          simp at ht
  · intro hfail
    unfold memory_download_and_queue
    rw [if_neg (by simp), hskip]
    rcases hfail with h | h <;> rw [h] <;> simp

/-- Witness for C6's theorem at concrete inputs: a failed disk download
and an empty-payload memory download are both recorded as download
failures and not enqueued. -/
theorem queue_only_fed_successful_downloads_witness :
    (disk_download_and_queue false artifactC2a "/tmp/t0" false true
      none).enqueued = none ∧
    (disk_download_and_queue false artifactC2a "/tmp/t0" false true
      none).download_failed = 1 ∧
    (memory_download_and_queue (fun s => s) (fun _ => "h1") ["zzz"] false
      artifactC2b (some []) none).enqueued = none ∧
    (memory_download_and_queue (fun s => s) (fun _ => "h1") ["zzz"] false
      artifactC2b (some []) none).download_failed = 1 := by
  have h := queue_only_fed_successful_downloads (fun s => s) (fun _ => "h1")
    ["zzz"] artifactC2a artifactC2b "/tmp/t0" false true none none (some [])
    (by decide)
  exact ⟨(h.2.1 (.inl rfl)).1, (h.2.1 (.inl rfl)).2.1,
    (h.2.2.2 (.inr rfl)).1, (h.2.2.2 (.inr rfl)).2.1⟩

/-- C7 (amended): in the memory pipeline, for every task that is
successfully placed on the upload queue the in-flight memory counter
returns to its pre-task value: it is incremented exactly once by the
payload's byte length after the successful download, and decremented by
the same length exactly once in the upload worker's guaranteed cleanup
step, regardless of the upload outcome; a task that is never enqueued
with a successful `put` (skipped, or failed download) leaves the counter
unchanged.  (A task whose `queue.put` raises keeps its payload and leaves
the counter increased — the code path the counterexample exhibits.) -/
theorem memory_counter_balanced_for_enqueued_tasks (md5Hex : String → String)
    (sha256Hex : List Nat → String) (uploadedHashes ledgerAtUpload : List String)
    (a : MavenArtifact) (fileData : Option (List Nat))
    (uploadResult : UploadAttempt) :
    (∀ t, (memory_download_and_queue md5Hex sha256Hex uploadedHashes false a
        fileData none).enqueued = some t →
      ∃ d, t.file_data = some d ∧
        (memory_download_and_queue md5Hex sha256Hex uploadedHashes false a
          fileData none).memoryDelta = (d.length : Int) ∧
        (memory_upload_worker_process md5Hex ledgerAtUpload t
          uploadResult).memoryDelta = (-(Int.ofNat d.length)) ∧
        (memory_download_and_queue md5Hex sha256Hex uploadedHashes false a
            fileData none).memoryDelta +
          (memory_upload_worker_process md5Hex ledgerAtUpload t
            uploadResult).memoryDelta = 0) ∧
    ((memory_download_and_queue md5Hex sha256Hex uploadedHashes false a
        fileData none).enqueued = none →
      (memory_download_and_queue md5Hex sha256Hex uploadedHashes false a
        fileData none).memoryDelta = 0) := by
  constructor
  · intro t ht
    unfold memory_download_and_queue at ht ⊢
    rw [if_neg (by simp)] at ht ⊢
    cases hchk : check_if_already_uploaded md5Hex uploadedHashes a with
    | some hh => rw [hchk] at ht; simp at ht
    | none =>
      rw [hchk] at ht
      cases hfd : fileData with
      | none => simp [hfd] at ht
      | some dta =>
        simp only [hfd] at ht
        by_cases hde : dta.isEmpty = true
        · simp [hde] at ht
        · simp only [hde, Bool.false_eq_true, if_false] at ht ⊢
          simp only [Option.some.injEq] at ht
          subst ht
          refine ⟨dta, rfl, by simp, ?_, ?_⟩
          · rw [memory_upload_worker_delta]
            simp [hde]
          · rw [memory_upload_worker_delta]
            simp [hde]
  · intro ht
    unfold memory_download_and_queue at ht ⊢
    rw [if_neg (by simp)] at ht ⊢
    cases hchk : check_if_already_uploaded md5Hex uploadedHashes a with
    | some hh => rfl
    | none =>
      cases hfd : fileData with
      | none => rfl
      | some dta =>
        by_cases hde : dta.isEmpty = true
        · simp [hde]
        · rw [hchk] at ht
          simp only [hfd] at ht
          simp only [hde, Bool.false_eq_true, if_false] at ht ⊢
          simp at ht

/-- Witness for C7's theorem at concrete inputs: a 3-byte payload
increments the counter by 3, the worker's cleanup decrements it by 3
even though the upload fails, and the net change is 0. -/
theorem memory_counter_balanced_for_enqueued_tasks_witness :
    ∃ d, ((memory_download_and_queue (fun s => s) (fun _ => "h1") [] false
        artifactC2b (some [1, 2, 3]) none).enqueued.getD
          { artifact := artifactC2b }).file_data = some d ∧
      (memory_download_and_queue (fun s => s) (fun _ => "h1") [] false
        artifactC2b (some [1, 2, 3]) none).memoryDelta = (d.length : Int) ∧
      (memory_upload_worker_process (fun s => s) []
        ((memory_download_and_queue (fun s => s) (fun _ => "h1") [] false
          artifactC2b (some [1, 2, 3]) none).enqueued.getD
            { artifact := artifactC2b })
        (.failed "HTTP 400")).memoryDelta = (-(Int.ofNat d.length)) ∧
      (memory_download_and_queue (fun s => s) (fun _ => "h1") [] false
          artifactC2b (some [1, 2, 3]) none).memoryDelta +
        (memory_upload_worker_process (fun s => s) []
          ((memory_download_and_queue (fun s => s) (fun _ => "h1") [] false
            artifactC2b (some [1, 2, 3]) none).enqueued.getD
              { artifact := artifactC2b })
          (.failed "HTTP 400")).memoryDelta = 0 := by
  have h := (memory_counter_balanced_for_enqueued_tasks (fun s => s)
    (fun _ => "h1") [] [] artifactC2b (some [1, 2, 3]) (.failed "HTTP 400")).1
    ((memory_download_and_queue (fun s => s) (fun _ => "h1") [] false
      artifactC2b (some [1, 2, 3]) none).enqueued.getD
        { artifact := artifactC2b }) (by decide)
  exact h

/-- C7 counterexample to the claim as stated: when `upload_queue.put`
raises (queue full after the 30 s timeout), the task's download succeeded
and the counter was incremented by the payload length, but the task is
never enqueued, so the worker's cleanup never runs and the counter does
not return to its pre-task value (the payload is also retained in the
failed-task record). -/
theorem memory_counter_leak_on_queue_put_failure :
    (memory_download_and_queue (fun s => s) (fun _ => "h1") [] false
      artifactC7 (some [1, 2, 3]) (some "queue.Full")).memoryDelta = 3 ∧
    (memory_download_and_queue (fun s => s) (fun _ => "h1") [] false
      artifactC7 (some [1, 2, 3]) (some "queue.Full")).enqueued = none ∧
    (memory_download_and_queue (fun s => s) (fun _ => "h1") [] false
      artifactC7 (some [1, 2, 3]) (some "queue.Full")).memoryDelta ≠ 0 := by decide

/-- One pagination step on a non-final empty page: the consecutive-empty
counter increments and the loop moves to the next page. -/
theorem paginateAux_step_empty (f : Nat → List PackageRow)
    (ps mp fuel pn ce : Nat) (acc : List PackageRow) (fetched : List Nat)
    (hpn : pn ≤ mp) (hf : f pn = []) (hce : ce + 1 < 3) :
    paginateAux f ps mp (fuel + 1) pn ce acc fetched =
      paginateAux f ps mp fuel (pn + 1) (ce + 1) acc (fetched ++ [pn]) := by
  conv_lhs => rw [paginateAux]
  rw [if_pos hpn]
  simp only [hf, List.isEmpty_nil, if_true]
  rw [if_neg (by omega)]

/-- The pagination step on the third consecutive empty page: the loop
stops. -/
theorem paginateAux_step_empty_last (f : Nat → List PackageRow)
    (ps mp fuel pn ce : Nat) (acc : List PackageRow) (fetched : List Nat)
    (hpn : pn ≤ mp) (hf : f pn = []) (hce : 3 ≤ ce + 1) :
    paginateAux f ps mp (fuel + 1) pn ce acc fetched =
      (acc, fetched ++ [pn]) := by
  conv_lhs => rw [paginateAux]
  rw [if_pos hpn]
  simp only [hf, List.isEmpty_nil, if_true]
  rw [if_pos (by omega)]

/-- One pagination step on a full page (exactly `pageSize` rows): the
rows are accumulated, the consecutive-empty counter resets, and no
lookahead is taken. -/
theorem paginateAux_step_full (f : Nat → List PackageRow)
    (ps mp fuel pn ce : Nat) (acc : List PackageRow) (fetched : List Nat)
    (hpn : pn ≤ mp) (hf : (f pn).length = ps) (hps : 0 < ps) :
    paginateAux f ps mp (fuel + 1) pn ce acc fetched =
      paginateAux f ps mp fuel (pn + 1) 0 (acc ++ f pn) (fetched ++ [pn]) := by
  conv_lhs => rw [paginateAux]
  rw [if_pos hpn]
  have hne : (f pn).isEmpty = false := by
    cases hfp : f pn with
    | nil => rw [hfp] at hf; simp at hf; omega
    | cons x xs => rfl
  simp only [hne, Bool.false_eq_true, if_false]
  rw [if_neg (by omega)]

/-- After the last full page the source keeps answering empty pages: the
loop fetches three consecutive empty pages and stops. -/
theorem paginateAux_empty_tail (f : Nat → List PackageRow) (ps mp : Nat)
    (n : Nat) (acc : List PackageRow) (fetched : List Nat) (fuel : Nat)
    (hE1 : f n = []) (hE2 : f (n + 1) = []) (hE3 : f (n + 2) = [])
    (hmax : n + 2 ≤ mp) (hfuel : 3 ≤ fuel) :
    paginateAux f ps mp fuel n 0 acc fetched =
      (acc, fetched ++ [n, n + 1, n + 2]) := by
  obtain ⟨m, rfl⟩ : ∃ m, fuel = m + 3 := ⟨fuel - 3, by omega⟩
  show paginateAux f ps mp ((m + 2) + 1) n 0 acc fetched = _
  rw [paginateAux_step_empty f ps mp (m + 2) n 0 acc fetched (by omega) hE1
    (by omega)]
  show paginateAux f ps mp ((m + 1) + 1) (n + 1) 1 acc (fetched ++ [n]) = _
  rw [paginateAux_step_empty f ps mp (m + 1) (n + 1) 1 acc (fetched ++ [n])
    (by omega) hE2 (by omega)]
  show paginateAux f ps mp (m + 1) (n + 2) 2 acc ((fetched ++ [n]) ++ [n + 1]) = _
  rw [paginateAux_step_empty_last f ps mp m (n + 2) 2 acc
    ((fetched ++ [n]) ++ [n + 1]) (by omega) hE3 (by omega)]
  simp

/-- The pagination loop over a source with exactly `k` full pages: from
page `n ≤ k + 1` it accumulates pages `n..k` and then confirms the end of
data by fetching the three consecutive empty pages `k+1..k+3`. -/
theorem paginateAux_run (f : Nat → List PackageRow) (ps mp k : Nat)
    (hps : 0 < ps)
    (hfull : ∀ p, 1 ≤ p → p ≤ k → (f p).length = ps)
    (hempty : ∀ p, k < p → f p = [])
    (hmax : k + 3 ≤ mp) :
    ∀ fuel n (acc : List PackageRow) (fetched : List Nat),
      1 ≤ n → n ≤ k + 1 → k + 4 - n ≤ fuel →
      paginateAux f ps mp fuel n 0 acc fetched =
        (acc ++ ((List.range' n (k + 1 - n)).map f).join,
          fetched ++ List.range' n (k + 4 - n)) := by
  intro fuel
  induction fuel with
  | zero => intro n acc fetched h1 h2 h3; omega
  | succ m ih =>
    intro n acc fetched h1 h2 h3
    by_cases hnk : n ≤ k
    · rw [paginateAux_step_full f ps mp m n 0 acc fetched (by omega)
        (hfull n h1 hnk) hps]
      rw [ih (n + 1) (acc ++ f n) (fetched ++ [n]) (by omega) (by omega)
        (by omega)]
      have hk1 : k + 1 - n = (k - n) + 1 := by omega
      have hk4 : k + 4 - n = (k + 3 - n) + 1 := by omega
      have hk3 : k + 4 - (n + 1) = k + 3 - n := by omega
      rw [hk1, hk4, hk3, List.range'_succ, List.range'_succ]
      have hkm : k + 1 - (n + 1) = k - n := by omega
      rw [hkm]
      simp [List.append_assoc]
    · have hn : n = k + 1 := by omega
      subst hn
      rw [paginateAux_empty_tail f ps mp (k + 1) acc fetched (m + 1)
        (hempty (k + 1) (by omega)) (hempty (k + 2) (by omega))
        (hempty (k + 3) (by omega)) (by omega) (by omega)]
      have h0 : k + 1 - (k + 1) = 0 := by omega
      have h3' : k + 4 - (k + 1) = 3 := by omega
      rw [h0, h3']
      simp [List.range'_succ]

/-- C3: when the package-listing source answers exactly `pageSize` rows
for every page `1..k` and zero rows from page `k+1` on,
`get_maven_versions` returns exactly `k * pageSize` version records, and
the pages it fetches are exactly `1..k+3`: it does not stop before
fetching page `k+1`, and it stops right after the emptiness of the tail
is confirmed (the source's confirmation step being 3 consecutive empty
pages, `k+1..k+3`), never touching a page beyond. -/
theorem get_maven_versions_pagination (makeReq : Nat → Except PyErr ApiBody)
    (pageSize maxPages k : Nat) (projectId : Nat) (repositoryName : String)
    (hps : 0 < pageSize) (hmax : k + 3 ≤ maxPages)
    (hfull : ∀ p, 1 ≤ p → p ≤ k →
      (get_maven_packages (makeReq p)).length = pageSize)
    (hempty : ∀ p, k < p → get_maven_packages (makeReq p) = []) :
    (get_maven_versions makeReq
        (some { page_size := pageSize, max_pages := maxPages }) none projectId
        repositoryName).1.length = k * pageSize ∧
    (get_maven_versions makeReq
        (some { page_size := pageSize, max_pages := maxPages }) none projectId
        repositoryName).2 = List.range' 1 (k + 3) := by
  have hrun := paginateAux_run (fun p => get_maven_packages (makeReq p))
    pageSize maxPages k hps hfull hempty hmax (maxPages + 1) 1 [] []
    (by omega) (by omega) (by omega)
  have hk1 : k + 1 - 1 = k := by omega
  have hk4 : k + 4 - 1 = k + 3 := by omega
  rw [hk1, hk4] at hrun
  have hjoinlen :
      (((List.range' 1 k).map (fun p => get_maven_packages (makeReq p))).join).length
        = k * pageSize := by
    rw [List.length_join]
    have hmaps : ((List.range' 1 k).map
          (fun p => get_maven_packages (makeReq p))).map List.length
        = List.replicate k pageSize := by
      rw [List.map_map]
      apply List.eq_replicate.mpr
      refine ⟨by simp, ?_⟩
      intro b hb
      simp only [List.mem_map, Function.comp] at hb
      obtain ⟨p, hp, rfl⟩ := hb
      have hpm := List.mem_range'_1.mp hp
      exact hfull p hpm.1 (by omega)
    rw [hmaps, List.sum_replicate, smul_eq_mul]
  unfold get_maven_versions
  simp only [Option.getD_none, hrun, List.nil_append]
  by_cases hemp :
      (((List.range' 1 k).map (fun p => get_maven_packages (makeReq p))).join).isEmpty = true
  · have h0 : (((List.range' 1 k).map
        (fun p => get_maven_packages (makeReq p))).join).length = 0 := by
      rw [List.isEmpty_iff] at hemp
      rw [hemp]
      rfl
    rw [if_pos hemp]
    refine ⟨?_, rfl⟩
    rw [h0] at hjoinlen
    simpa using hjoinlen
  · rw [if_neg hemp]
    refine ⟨?_, rfl⟩
    rw [List.length_map]
    exact hjoinlen

/-- Witness for C3's theorem at a concrete input: `page_size = 2`, `k = 2`
full pages, `max_pages = 10` — the paginator returns 4 version records and
fetches exactly pages 1..5. -/
theorem get_maven_versions_pagination_witness :
    (get_maven_versions makeReqC3 (some { page_size := 2, max_pages := 10 })
      none 42 "releases").1.length = 2 * 2 ∧
    (get_maven_versions makeReqC3 (some { page_size := 2, max_pages := 10 })
      none 42 "releases").2 = List.range' 1 (2 + 3) := by
  apply get_maven_versions_pagination makeReqC3 2 10 2 42 "releases"
    (by decide) (by decide)
  · intro p h1 h2
    interval_cases p <;> rfl
  · intro p hp
    have hnp : ¬ p ≤ 2 := by omega
    simp [makeReqC3, get_maven_packages, get_maven_packages_body, hnp]

/-- When every page is empty the pagination loop accumulates nothing. -/
theorem paginateAux_all_empty (f : Nat → List PackageRow) (ps mp : Nat)
    (hf : ∀ p, f p = []) :
    ∀ fuel pn ce (acc : List PackageRow) (fetched : List Nat),
      (paginateAux f ps mp fuel pn ce acc fetched).1 = acc := by
  intro fuel
  induction fuel with
  | zero => intro pn ce acc fetched; rfl
  | succ m ih =>
    intro pn ce acc fetched
    rw [paginateAux]
    by_cases hpn : pn ≤ mp
    · rw [if_pos hpn]
      simp only [hf pn, List.isEmpty_nil, if_true]
      by_cases hce : ce + 1 ≥ 3
      · rw [if_pos hce]
      · rw [if_neg hce]
        exact ih (pn + 1) (ce + 1) acc (fetched ++ [pn])
    · rw [if_neg hpn]

/-- C10: `get_maven_packages` and `get_maven_versions` never propagate an
exception: `get_maven_packages` turns every failed request into the empty
list (its `try` body erring is caught), and when every page request fails
`get_maven_versions` returns exactly what it returns against an empty
repository — the empty list — so a failing enumeration is
indistinguishable from an empty repository at the call site. -/
theorem enumeration_never_propagates (mk : Except PyErr ApiBody)
    (makeReq : Nat → Except PyErr ApiBody) (errOf : Nat → PyErr)
    (paginationConfig : Option PaginationConfig) (maxPagesArg : Option Nat)
    (projectId : Nat) (repositoryName : String) :
    (∀ e : PyErr, get_maven_packages (.error e) = []) ∧
    ((get_maven_packages_body mk).isOk = false → get_maven_packages mk = []) ∧
    ((∀ p, makeReq p = .error (errOf p)) →
      get_maven_versions makeReq paginationConfig maxPagesArg projectId
          repositoryName =
        get_maven_versions (fun _ => .ok { err := none, instanceSet := [] })
          paginationConfig maxPagesArg projectId repositoryName ∧
      (get_maven_versions makeReq paginationConfig maxPagesArg projectId
        repositoryName).1 = []) := by
  refine ⟨fun e => rfl, ?_, ?_⟩
  · intro hk
    cases mk with
    | ok body => simp [get_maven_packages_body, Except.isOk, Except.toBool] at hk
    | error e => rfl
  · intro hfail
    have hfetch : (fun p => get_maven_packages (makeReq p)) =
        (fun p => get_maven_packages
          ((fun _ => (.ok { err := none, instanceSet := [] } :
            Except PyErr ApiBody)) p)) := by
      funext p
      rw [hfail p]
      rfl
    constructor
    · unfold get_maven_versions
      rw [hfetch]
    · unfold get_maven_versions
      have hacc := paginateAux_all_empty
        (fun p => get_maven_packages (makeReq p))
        (match paginationConfig with | some pc => pc.page_size | none => 100)
        (maxPagesArg.getD (match paginationConfig with
          | some pc => pc.max_pages | none => 1000))
        (fun p => by show get_maven_packages (makeReq p) = []; rw [hfail p]; rfl)
        ((maxPagesArg.getD (match paginationConfig with
          | some pc => pc.max_pages | none => 1000)) + 1) 1 0 [] []
      simp [hacc]

/-- Witness for C10's theorem at a concrete input: with every page
request failing, the version enumeration equals the empty-repository
enumeration and returns the empty list. -/
theorem enumeration_never_propagates_witness :
    get_maven_versions (fun _ => .error (.requestException "boom"))
        (some { page_size := 100, max_pages := 50 }) none 42 "releases" =
      get_maven_versions (fun _ => .ok { err := none, instanceSet := [] })
        (some { page_size := 100, max_pages := 50 }) none 42 "releases" ∧
    (get_maven_versions (fun _ => .error (.requestException "boom"))
      (some { page_size := 100, max_pages := 50 }) none 42 "releases").1 = [] :=
  (enumeration_never_propagates (.error (.requestException "boom"))
    (fun _ => .error (.requestException "boom"))
    (fun _ => .requestException "boom")
    (some { page_size := 100, max_pages := 50 }) none 42 "releases").2.2
    (fun _ => rfl)

end CodingMigrator
